import Mathlib

/-!
Verification of the `BaseDataObject` pipeline from `pylim/DataTools.py`.

The data object is embedded shallowly: the numeric buffers become lists of
rows of rationals (time-major when a leading time axis is present; a data
object without a leading time axis carries its flattened spatial vector as a
single row), the per-stage attribute registry becomes association lists, and
every method that can raise returns an `Except` whose error value carries the
object state at the moment the exception fires, so that atomicity properties
can be stated.  NaN values only matter for masking and inflation, where cells
are modelled as `Option ℚ` with `none` standing for NaN.
-/

/-- Elementwise vector addition, the broadcasted `+` of two equal-length
numpy rows (`List.zipWith` truncates on ragged input, which no theorem
exercises). -/
def vecAdd (a b : List ℚ) : List ℚ := List.zipWith (· + ·) a b

/-- Sum of a list of rows, elementwise; the reduction underlying
`np.mean(axis=...)` and `np.sum(axis=...)` over equal-length rows. -/
def vecSum : List (List ℚ) → List ℚ
  | [] => []
  | [r] => r
  | r :: rs => vecAdd r (vecSum rs)

/-- Scalar multiplication of a row, the broadcasted `*` of numpy. -/
def vecScale (c : ℚ) (v : List ℚ) : List ℚ := v.map (fun x => c * x)

/-- Dictionary update `d[k] = v` for an association list read through
`List.lookup` (the new binding shadows any older one). -/
def updateA {α : Type} (l : List (String × α)) (k : String) (v : α) :
    List (String × α) := (k, v) :: l

/-- Python list slicing `l[e:-e]` for `e ≥ 0`: empty when `e = 0` (since
`-0 == 0`), otherwise the elements with indices `e ≤ i < len l - e`. -/
def pySliceTrim (l : List ℚ) (e : Nat) : List ℚ :=
  if e = 0 then [] else (l.drop e).take (l.length - 2 * e)

/-- The state of a `BaseDataObject`: the fields of `pylim/DataTools.py`
(lines 121-272) that the verified claims touch.  `bins` is `_data_bins`,
`curr` is `_curr_data_key`, `ops` is `_ops_performed`, `altered` is
`_altered_time_coords`, `dim_coords_time` is the `TIME` entry of
`_dim_coords` (axis position and coordinate vector), and `time_shp` is
`_time_shp` (a list: empty without a leading time axis). -/
structure DataObj where
  leading_time : Bool
  is_masked : Bool
  valid_data : Option (List Bool)
  cell_area : Option (List ℚ)
  irregular_grid : Bool
  save_none : Bool
  data : List (List ℚ)
  time_shp : List Int
  dim_coords_time : Option (Nat × List ℚ)
  bins : List (String × List (List ℚ))
  curr : String
  ops : List (String × List String)
  altered : List (String × List ℚ)
  eofs : Option (List (List ℚ))
  svals : Option (List ℚ)
  eof_stats : List (String × Option String)
  std_scaling : Option ℚ
deriving DecidableEq

/-- Stage key `_ORIGDATA = "orig"`. -/
def ORIGKEY : String := "orig"

/-- Stage key `_RUNMEAN = "running_mean"`. -/
def RUNMEAN : String := "running_mean"

/-- Stage key `_AWGHT = "area_weighted"`. -/
def AWGHT : String := "area_weighted"

/-- Stage key `_STD = "standardized"`. -/
def STDKEY : String := "standardized"

/-- Stage key `_EOFPROJ = "eof_proj"`. -/
def EOFPROJ : String := "eof_proj"

/-- Result of a mutating method: on success the new state, on failure the
raised message together with the state as the exception leaves it (Python
exceptions do not roll mutations back). -/
abbrev DRes := Except (String × DataObj) DataObj

/-- The successful state of a `DRes`, if any. -/
def okD : DRes → Option DataObj
  | .ok s => some s
  | .error _ => none

/-- The state carried out of a raising call, if the call raised. -/
def errStateD : DRes → Option DataObj
  | .ok _ => none
  | .error (_, s) => some s

/-- `BaseDataObject.time_average_resample` (lines 432-478): block-mean
resampling over the leading sampling dimension.  Checks mirror the source in
order: missing leading time axis, negative `shift`, `nsamples_in_avg = 0`
(a `ZeroDivisionError` at the floor division, before any mutation), then
`np.empty` on a negative first dimension (`floor((N-shift)/k) < 0`), which
raises BEFORE the databin is recorded.  A negative `nsamples_in_avg` with a
nonnegative row count (`shift` at or beyond the series end) gets PAST the
allocation: the (empty) databin is registered, the stage attribute set and
`self.data` reassigned to the `slice(shift, end_cutoff)` slice, and only
then does `reshape` reject the negative block dimension when the row count
is 0 — the error carries those mutations.  When the row count is positive
(`shift` at least `|k|` beyond the series) the source even succeeds,
reshaping a size-0 array to zero-length blocks whose means are NaN; that
region is outside the rational data model (NaN output, and the registered
bin then holds uninitialized storage rather than the empty list recorded
here) and is mapped to a clearly marked model-boundary error which no
theorem exercises.  On the success path the
two-phase allocate-then-fill of the databin is collapsed to recording the
final averaged array.  `slice(shift, end_cutoff)` followed by
`reshape(avg_shape)` and `mean(axis=1)` makes output row `i` the elementwise
mean of input rows `shift + i*k, ..., shift + (i+1)*k - 1`, and
`slice(shift, end_cutoff, nsamples_in_avg)` subsamples the time coordinate
with the same offset and stride. -/
def time_average_resample (st : DataObj) (key : String) (k shift : Int) :
    DRes :=
  if st.leading_time = false then
    .error ("Can only perform a resample operation when data has a leading sampling dimension.", st)
  else if shift < 0 then
    .error ("Currently only positive shifts are supported for resampling.", st)
  else if k = 0 then
    .error ("ZeroDivisionError: integer division or modulo by zero", st)
  else
    let N : Int := st.time_shp.headD 0
    let newN : Int := Int.fdiv (N - shift) k
    if newN < 0 then .error ("negative dimensions are not allowed", st)
    else if k < 0 then
      let r := Int.fmod (N - shift) k
      let slicedData :=
        if r = 0 then st.data.drop shift.toNat
        else (st.data.take (-r).toNat).drop shift.toNat
      let st1 := { st with bins := updateA st.bins key [], data := slicedData }
      if newN = 0 then
        .error ("cannot reshape array of size 0 into a negative block shape", st1)
      else
        .error ("model boundary: negative block size with shift beyond the series yields NaN means", st1)
    else
      let n' := newN.toNat
      let s := shift.toNat
      let kk := k.toNat
      let newData := (List.range n').map
        (fun i => vecScale (1 / (kk : ℚ)) (vecSum ((st.data.drop (s + i * kk)).take kk)))
      let st1 := { st with bins := updateA st.bins key newData,
                           data := newData,
                           time_shp := [(n' : Int)] }
      match st.dim_coords_time with
      | none => .error ("KeyError: time", st1)
      | some (ti, coord) =>
        let newCoord := (List.range n').map (fun i => coord.getD (s + i * kk) 0)
        let st2 := { st1 with dim_coords_time := some (ti, newCoord),
                              altered := updateA st1.altered key newCoord }
        match List.lookup st.curr st.ops with
        | none => .error ("KeyError: current key missing from operation history", st2)
        | some chain =>
          .ok { st2 with ops := updateA st2.ops key (chain ++ [key]), curr := key }

/-- Ceiling division of naturals: for `0 < b` this is the exact value of
`int(np.ceil(a / float(b)))`, since `ceil(a/b) = (a + b - 1) / b` holds in
exact arithmetic and the magnitudes involved are far below any float
rounding threshold. -/
def natCeilDiv (a b : Nat) : Nat := (a + b - 1) / b

/-- The edge trim of `calc_running_mean` exactly as the source computes it:
`year_len` clamped to at least 1, `edge_pad = window_size // 2` (floor),
then `int(np.ceil(edge_pad / float(year_len)) * year_len)`, rendered
exactly by natural ceiling division. -/
def edgeTrimOf (window_size : Nat) (year_len : Int) : Nat :=
  natCeilDiv (window_size / 2) (max year_len 1).toNat * (max year_len 1).toNat

/-- Modelled from the spec: the running-mean kernel `run_mean` lives in
`pylim/Stats.py`, which is not under `src/`.  The spec describes it as a
centered moving average of window `w` along the time axis whose output has
`trim` samples removed from each end so the window never reads outside the
series; output sample `i` is therefore the mean of the `w` input samples
centered on input index `i + trim`.  Only the output sample count `N - 2*trim`
is used by any claim. -/
def run_mean (data : List (List ℚ)) (w trim : Nat) : List (List ℚ) :=
  (List.range (data.length - 2 * trim)).map
    (fun i => vecScale (1 / (w : ℚ)) (vecSum ((data.drop (trim + i - w / 2)).take w)))

/-- `BaseDataObject.calc_running_mean` (lines 624-687).  Mirrors the source
order of effects: the leading-time check raises first; `year_len` is clamped
to at least 1; `edge_pad = window_size // 2` (floor); `edge_trim =
int(np.ceil(edge_pad / float(year_len)) * year_len)`, rendered exactly by
`natCeilDiv`; the `TIME` entry of `_dim_coords` is overwritten with the
`[edge_trim:-edge_trim]` slice of the old coordinate BEFORE the output bin
is allocated, so a failing allocation (negative first dimension when the
trim exceeds the series) raises with that mutation already in place.  The
allocate-then-fill of the databin is collapsed to recording the final
filtered array. -/
def calc_running_mean (st : DataObj) (window_size : Nat) (year_len : Int)
    (save : Bool) : DRes :=
  if st.leading_time = false then
    .error ("Can only perform a running mean when data has a leading sampling dimension.", st)
  else
    let edge_trim := edgeTrimOf window_size year_len
    let newLen : Int := (st.data.length : Int) - 2 * (edge_trim : Int)
    match st.dim_coords_time with
    | none => .error ("KeyError: time", st)
    | some (ti, coord) =>
      let newCoord := pySliceTrim coord edge_trim
      let st1 := { st with dim_coords_time := some (ti, newCoord) }
      let withBin := save = true ∧ st.save_none = false
      if save = true ∧ st.save_none = false ∧ newLen < 0 then
        .error ("negative dimensions are not allowed", st1)
      else
        let newData := run_mean st.data window_size edge_trim
        let st2 := { st1 with
          data := newData,
          bins := if withBin then updateA st1.bins RUNMEAN newData else st1.bins,
          time_shp := [newLen] }
        match List.lookup st.curr st.ops with
        | none => .error ("KeyError: current key missing from operation history", st2)
        | some chain =>
          .ok { st2 with
                ops := updateA st2.ops RUNMEAN (chain ++ [RUNMEAN]),
                curr := RUNMEAN,
                altered := updateA st2.altered RUNMEAN newCoord }

/-- `BaseDataObject._set_time_coord` resolution (lines 399-409): the stage
key itself is looked up in `_altered_time_coords`; failing that, the stage
history chain `_ops_performed[key]` is walked backward and the first
ancestor with a recorded coordinate wins; a missing history entry is a
`KeyError` and an exhausted walk is the `IndexError` of the for-else. -/
def resolveTimeCoord (st : DataObj) (key : String) : Except String (List ℚ) :=
  match List.lookup key st.altered with
  | some tc => .ok tc
  | none =>
    match List.lookup key st.ops with
    | none => .error "KeyError: stage key missing from operation history"
    | some ops =>
      match ops.reverse.find? (fun a => (List.lookup a st.altered).isSome) with
      | none => .error "No suitable time coordinates found for current key."
      | some anc =>
        match List.lookup anc st.altered with
        | some tc => .ok tc
        | none => .error "unreachable: find? witness lost"

/-- `BaseDataObject._set_time_coord` (lines 393-422): resolves the
coordinate vector for `key`, raises if its length disagrees with the data
sample length, and on success installs it (with the existing axis position)
in `_dim_coords[TIME]` and sets `_time_shp`. -/
def set_time_coord (st : DataObj) (key : String) (timeLen : Nat) : DRes :=
  match resolveTimeCoord st key with
  | .error m => .error (m, st)
  | .ok tc =>
    if tc.length ≠ timeLen then
      .error ("Inconsistent sampling dimension and corresponding coordinate length detected.", st)
    else
      match st.dim_coords_time with
      | none => .error ("KeyError: time", st)
      | some (ti, _c) =>
        .ok { st with dim_coords_time := some (ti, tc), time_shp := [(timeLen : Int)] }

/-- `BaseDataObject.reset_data` (lines 1058-1070): restores `self.data` and
the current key from a recorded databin, then (with a leading time axis)
re-resolves the time coordinate; an unknown key raises with the state
untouched, while a coordinate-resolution failure raises after `data` and the
current key were already reassigned. -/
def reset_data (st : DataObj) (key : String) : DRes :=
  match List.lookup key st.bins with
  | none => .error ("Key not saved.  Could not reset self.data.", st)
  | some d =>
    let st1 := { st with data := d, curr := key }
    if st1.leading_time = true then set_time_coord st1 key d.length else .ok st1

/-- `BaseDataObject.standardize_data` (lines 824-879), eager (non-dask)
path with an explicitly supplied `std_factor`.  The `std_factor=None`
branch scales by `1/sqrt(total sample variance)`, an irrational number in
general, and is not exercised by any claim, so only the supplied-factor
path is embedded.  Note the method performs no leading-time check: it
scales, records the new bin (when saving), and commits the stage. -/
def standardize_data (st : DataObj) (std_factor : ℚ) (save : Bool) : DRes :=
  let newData := st.data.map (vecScale std_factor)
  let withBin := save = true ∧ st.save_none = false
  let st1 := { st with
    data := newData,
    bins := if withBin then updateA st.bins STDKEY newData else st.bins,
    std_scaling := some std_factor }
  match List.lookup st.curr st.ops with
  | none => .error ("KeyError: current key missing from operation history", st1)
  | some chain =>
    .ok { st1 with ops := updateA st1.ops STDKEY (chain ++ [STDKEY]), curr := STDKEY }

/-- `BaseDataObject.area_weight_data` (lines 760-822) in the eager path
with `use_sqrt=False`; the `use_sqrt=True` default additionally takes
elementwise square roots of the (nonnegative) weights, which is irrational
in general — the claims under verification concern only whether the method
raises and commits, which is identical in both modes.  With no cell areas
and a regular grid the source weights by `|cos(latitude)|`; that
transcendental branch is outside the rational embedding and is mapped to a
distinguishable error marker which no theorem exercises.  Note the method
performs no leading-time check. -/
def area_weight_data (st : DataObj) (save : Bool) : DRes :=
  match st.cell_area with
  | none =>
    if st.irregular_grid = true then
      .error ("Cell areas are required to area-weight a non-regular grid.", st)
    else
      .error ("model boundary: latitude-based weighting not embedded", st)
  | some area =>
    let scale := area.map (fun a => a / area.sum)
    let newData := st.data.map (fun row => List.zipWith (· * ·) row scale)
    let withBin := save = true ∧ st.save_none = false
    let st1 := { st with
      data := newData,
      bins := if withBin then updateA st.bins AWGHT newData else st.bins }
    match List.lookup st.curr st.ops with
    | none => .error ("KeyError: current key missing from operation history", st1)
    | some chain =>
      .ok { st1 with ops := updateA st1.ops AWGHT (chain ++ [AWGHT]), curr := AWGHT }

/-- Modelled from the spec: the eigen-decomposition kernel `calc_eofs`
lives in `pylim/Stats.py`, which is not under `src/`; the spec treats it as
an external pure function with a documented contract ("computes the leading
`k` empirical orthogonal functions"), and the only part of that contract
any claim depends on is its shape: a basis matrix with one row per feature
and `k` columns, plus `k` singular values.  It is modelled here as the
first `k` coordinate directions. -/
def calc_eofs (data : List (List ℚ)) (k : Nat) : List (List ℚ) × List ℚ :=
  let F := (data.headD []).length
  ((List.range F).map (fun i => (List.range k).map (fun j => if i = j then 1 else 0)),
   (List.range k).map (fun _ => 1))

/-- `np.dot` for a 2D array against a 2D array: entry `(i, j)` of the
product is the inner product of row `i` of `A` with column `j` of `B`.
The number of output columns is the row width of `B` (uniform for a numpy
array, hypothesised where needed). -/
def matMul (A B : List (List ℚ)) : List (List ℚ) :=
  A.map (fun row =>
    (List.range (B.headD []).length).map
      (fun j => ((List.zip row B).map (fun p => p.1 * (p.2.getD j 0))).sum))

/-- `BaseDataObject.eof_proj_data` (lines 881-966), eager path.  Source
order: leading-time check; if no `calc_on_key` was supplied and the current
stage is not the area-weighted one, reset to the area-weighted bin (which
may raise); data here is always modelled in flattened 2D form, so the
`ndim > 2` flattening branch is the identity; an externally supplied basis
must have one row per data feature (else the feature-mismatch error, with
nothing yet mutated) and its column count overrides `num_eofs`; with no
external basis the EOF kernel runs and the variance bookkeeping is reset to
record the basis stage; an optional `proj_key` reset; then the projection
is computed, recorded in a fresh databin (allocate-then-fill collapsed) and
committed as the current stage. -/
def eof_proj_data (st : DataObj) (num_eofs : Nat)
    (eof_in : Option (List (List ℚ))) (save : Bool)
    (calc_on_key : Option String) (proj_key : Option String) : DRes :=
  if st.leading_time = false then
    .error ("Can only perform eof calculation with a specified leading sampling dimension", st)
  else
    let step1 : DRes :=
      if calc_on_key.isNone = true ∧ st.curr ≠ AWGHT then reset_data st AWGHT
      else .ok st
    match step1 with
    | .error e => .error e
    | .ok st1 =>
      let calcOn : Option String :=
        if calc_on_key.isNone = true ∧ st.curr ≠ AWGHT then some AWGHT else calc_on_key
      let checked : Except (String × DataObj) (DataObj × Nat) :=
        match eof_in with
        | some B =>
          if B.length ≠ (st1.data.headD []).length then
            .error ("Feature dimension mismatch for input EOFs", st1)
          else .ok ({ st1 with eofs := some B }, (B.headD []).length)
        | none =>
          let es := calc_eofs st1.data num_eofs
          .ok ({ st1 with eofs := some es.1, svals := some es.2,
                          eof_stats := [("calc_on", calcOn)] }, num_eofs)
      match checked with
      | .error e => .error e
      | .ok (st2, _nEofs) =>
        let step3 : DRes :=
          match proj_key with
          | some pk => reset_data st2 pk
          | none => .ok st2
        match step3 with
        | .error e => .error e
        | .ok st3 =>
          let proj := matMul st3.data (st3.eofs.getD [])
          let withBin := save = true ∧ st3.save_none = false
          let st4 := { st3 with
            data := proj,
            bins := if withBin then updateA st3.bins EOFPROJ proj else st3.bins }
          match List.lookup st3.curr st4.ops with
          | none => .error ("KeyError: current key missing from operation history", st4)
          | some chain =>
            .ok { st4 with ops := updateA st4.ops EOFPROJ (chain ++ [EOFPROJ]),
                           curr := EOFPROJ }

/-- `BaseDataObject.copy` (lines 1094-1182) for an index-list subsample
(the slice flavor differs only in how the new sample count is computed and
is not claimed).  Source order: the subsample-without-leading-time check
raises first with nothing copied; the EOF artifacts survive into the copy
exactly when the current stage key is the EOF-projection stage or has it in
its recorded history chain, and are otherwise reset to empty; the copy
keeps a single databin (the current one), a single-entry history chain, and
a single altered-time-coordinate entry holding the (possibly subsampled)
coordinate; a missing history entry for the current key or a missing TIME
coordinate entry is a `KeyError` that aborts the copy. -/
def copy_obj (st : DataObj) (data_indices : Option (List Nat)) : DRes :=
  if data_indices.isSome = true ∧ st.leading_time = false then
    .error ("Cannot copy with specified indices for subsample when data does not contain leading sampling dim.", st)
  else
    match List.lookup st.curr st.ops with
    | none => .error ("KeyError: current key missing from operation history", st)
    | some chain =>
      let keepEofs := st.curr = EOFPROJ ∨ chain.contains EOFPROJ
      match st.dim_coords_time with
      | none => .error ("KeyError: time", st)
      | some (ti, coord) =>
        let newData := match data_indices with
          | some idxs => idxs.map (fun i => st.data.getD i [])
          | none => st.data
        let newCoord := match data_indices with
          | some idxs => idxs.map (fun i => coord.getD i 0)
          | none => coord
        let newShp : List Int := match data_indices with
          | some idxs => [(idxs.length : Int)]
          | none => st.time_shp
        .ok { st with
              data := newData,
              time_shp := newShp,
              dim_coords_time := some (ti, newCoord),
              bins := [(st.curr, newData)],
              ops := [(st.curr, chain)],
              altered := [(st.curr, newCoord)],
              eofs := if keepEofs then st.eofs else none,
              svals := if keepEofs then st.svals else none,
              eof_stats := if keepEofs then st.eof_stats else [] }

/-- Validity of spatial column `j` over the whole series: finite (non-NaN,
modelled as `Option.isSome`) at every time sample, the axis-collapse rule of
`BaseDataObject._check_invalid_data` (lines 329-338) with no fill value. -/
def colValid (grid : List (List (Option ℚ))) (j : Nat) : Bool :=
  grid.all (fun row => (row.getD j none).isSome)

/-- The flattened valid-data mask of a full grid of width `w`, as derived at
construction: one Boolean per spatial column. -/
def validMaskOf (grid : List (List (Option ℚ))) (w : Nat) : List Bool :=
  (List.range w).map (fun j => colValid grid j)

/-- `np.compress(valid_mask, row)` for one time sample: keep the entries in
the columns marked valid (all of which are finite there), dropping the
rest.  This is the per-row action of
`BaseDataObject._compress_to_valid_data` (lines 364-379). -/
def compressRow : List Bool → List (Option ℚ) → List ℚ
  | [], _ => []
  | _ :: _, [] => []
  | true :: vs, x :: xs => x.getD 0 :: compressRow vs xs
  | false :: vs, _ :: xs => compressRow vs xs

/-- Re-expansion of one compressed row onto the full grid: valid columns
take the next compressed value in order (the C-order fill of
`full[valid_mask] = data.flatten()`), invalid columns become NaN (`none`). -/
def inflateRow : List Bool → List ℚ → List (Option ℚ)
  | [], _ => []
  | false :: vs, row => none :: inflateRow vs row
  | true :: vs, [] => none :: inflateRow vs []
  | true :: vs, x :: xs => some x :: inflateRow vs xs

/-- `valid_data.sum()`: the number of valid spatial cells. -/
def countTrue (l : List Bool) : Nat := (l.filter (fun b => b)).length

/-- `BaseDataObject.inflate_full_grid` (lines 558-622) with the default
`expand_axis=-1` and without the optional original-shape reshape (the
claims concern the flat grid).  An unmasked object returns `None`
immediately, before any use of the optional data argument.  Explicitly
supplied data must have compressed-axis length equal to the number of valid
cells, else the documented fatal error; otherwise each row is expanded onto
the full flat grid with NaN in the invalid columns. -/
def inflate_full_grid (st : DataObj) (dataArg : Option (List (List ℚ))) :
    Except String (Option (List (List (Option ℚ)))) :=
  if st.is_masked = false then .ok none
  else
    match st.valid_data with
    | none => .error "AttributeError: no valid-data mask recorded"
    | some valid =>
      match dataArg with
      | some d =>
        if (d.headD []).length ≠ countTrue valid then
          .error "Input data does not have same length as number of valid data elements."
        else .ok (some (d.map (fun row => inflateRow valid row)))
      | none => .ok (some (st.data.map (fun row => inflateRow valid row)))

/-- The externally-supplied-mask branch of `BaseDataObject.__init__`
(lines 189-234), which decides between mask application and
already-compressed handling.  Transcribed exactly as the source reads:
`dim_lim = valid_data.ndim`, then `if dim_lim <= 3:` raises the
`ValueError` whose message says the mask should not have MORE than 3
dimensions; the `elif dim_lim != len(self._spatial_shp)` arm only logs.  A
data dimension strictly larger than the matching mask dimension raises;
otherwise the returned flag says whether the data is already compressed
(some data dimension strictly smaller than the mask dimension). -/
def initValidDataBranch (spatial_shp : List Nat) (valid_shape : List Nat) :
    Except String Bool :=
  let dim_lim := valid_shape.length
  if dim_lim ≤ 3 then
    .error "Valid data mask should not have more than 3 dimensions"
  else if (spatial_shp.zip valid_shape).any (fun p => p.2 < p.1) then
    .error "Encountered data dimension larger than equivalent masked dimension."
  else .ok ((spatial_shp.zip valid_shape).any (fun p => p.1 < p.2))

/-- The running-mean trim amount exactly as the claim words it:
`e = ceil((w/2)/yearLen) * yearLen` with `w/2` read as exact halving, i.e.
the ceiling of the rational `w / (2*yearLen)`, rendered for naturals by
ceiling division. -/
def claimTrim (w yearLen : Nat) : Nat := natCeilDiv w (2 * yearLen) * yearLen

/-- A concrete ten-sample data object with a leading time axis, one spatial
column per sample, and the original stage recorded; used to instantiate
universally quantified theorems. -/
def sampleTen : DataObj := {
  leading_time := true, is_masked := false, valid_data := none,
  cell_area := none, irregular_grid := false, save_none := false,
  data := [[1],[2],[3],[4],[5],[6],[7],[8],[9],[10]],
  time_shp := [10],
  dim_coords_time := some (0, [100,101,102,103,104,105,106,107,108,109]),
  bins := [("orig", [[1],[2],[3],[4],[5],[6],[7],[8],[9],[10]])],
  curr := "orig", ops := [("orig", ["orig"])],
  altered := [("orig", [100,101,102,103,104,105,106,107,108,109])],
  eofs := none, svals := none, eof_stats := [], std_scaling := none }

/-- A concrete twenty-sample data object (leading time axis, zero-width
spatial rows) used to evaluate the running mean at an odd window size. -/
def sampleTwenty : DataObj := {
  leading_time := true, is_masked := false, valid_data := none,
  cell_area := none, irregular_grid := false, save_none := false,
  data := List.replicate 20 [],
  time_shp := [20],
  dim_coords_time := some (0, [0,1,2,3,4,5,6,7,8,9,10,11,12,13,14,15,16,17,18,19]),
  bins := [("orig", List.replicate 20 [])],
  curr := "orig", ops := [("orig", ["orig"])],
  altered := [("orig", [0,1,2,3,4,5,6,7,8,9,10,11,12,13,14,15,16,17,18,19])],
  eofs := none, svals := none, eof_stats := [], std_scaling := none }

/-- A concrete twenty-six-sample data object (leading time axis, zero-width
spatial rows), long enough for a window-12 whole-year trim. -/
def sampleTwentySix : DataObj := {
  leading_time := true, is_masked := false, valid_data := none,
  cell_area := none, irregular_grid := false, save_none := false,
  data := List.replicate 26 [],
  time_shp := [26],
  dim_coords_time := some (0, [0,1,2,3,4,5,6,7,8,9,10,11,12,13,14,15,16,17,18,19,20,21,22,23,24,25]),
  bins := [("orig", List.replicate 26 [])],
  curr := "orig", ops := [("orig", ["orig"])],
  altered := [("orig", [0,1,2,3,4,5,6,7,8,9,10,11,12,13,14,15,16,17,18,19,20,21,22,23,24,25])],
  eofs := none, svals := none, eof_stats := [], std_scaling := none }

/-- A concrete data object without a leading time axis (a flattened spatial
vector of width 0, cell areas present), used to exercise the transforms
that the claims say must reject it. -/
def sampleFlat : DataObj := {
  leading_time := false, is_masked := false, valid_data := none,
  cell_area := some [2, 2], irregular_grid := false, save_none := false,
  data := [[]], time_shp := [], dim_coords_time := none,
  bins := [("orig", [[]])], curr := "orig", ops := [("orig", ["orig"])],
  altered := [], eofs := none, svals := none, eof_stats := [], std_scaling := none }

/-- A concrete four-sample data object with a leading time axis, too short
for a window-12 whole-year trim; running mean on it must fail. -/
def sampleFour : DataObj := {
  leading_time := true, is_masked := false, valid_data := none,
  cell_area := none, irregular_grid := false, save_none := false,
  data := List.replicate 4 [],
  time_shp := [4],
  dim_coords_time := some (0, [100,101,102,103]),
  bins := [("orig", List.replicate 4 [])],
  curr := "orig", ops := [("orig", ["orig"])],
  altered := [("orig", [100,101,102,103])],
  eofs := none, svals := none, eof_stats := [], std_scaling := none }

/-- A data object whose history chain `orig -> running_mean -> anomaly`
has a recorded time coordinate only at the `orig` ancestor. -/
def sampleChain : DataObj := { sampleTen with
  ops := [("orig", ["orig"]), ("running_mean", ["orig", "running_mean"]),
          ("anomaly", ["orig", "running_mean", "anomaly"])],
  altered := [("orig", [100,101,102])] }

/-- A two-sample full grid of width 3 whose middle column is NaN at every
time sample (the masked column). -/
def gridTwoByThree : List (List (Option ℚ)) :=
  [[some 1, none, some 2], [some 3, none, some 4]]

/-- The masked data object built from `gridTwoByThree`: validity mask
derived from the grid, data compressed to the valid columns. -/
def sampleMasked : DataObj := {
  leading_time := true, is_masked := true,
  valid_data := some (validMaskOf gridTwoByThree 3),
  cell_area := none, irregular_grid := false, save_none := false,
  data := gridTwoByThree.map (fun r => compressRow (validMaskOf gridTwoByThree 3) r),
  time_shp := [2],
  dim_coords_time := some (0, [100,101]),
  bins := [("compressed_data", gridTwoByThree.map (fun r => compressRow (validMaskOf gridTwoByThree 3) r))],
  curr := "compressed_data",
  ops := [("orig", ["orig"]), ("compressed_data", ["orig", "compressed_data"])],
  altered := [("orig", [100,101])],
  eofs := none, svals := none, eof_stats := [], std_scaling := none }

/-- A three-sample, two-feature data object whose current stage is the
area-weighted one (the default EOF basis stage). -/
def sampleAreaWeighted : DataObj := {
  leading_time := true, is_masked := false, valid_data := none,
  cell_area := none, irregular_grid := false, save_none := false,
  data := [[1,2],[3,4],[5,6]],
  time_shp := [3],
  dim_coords_time := some (0, [100,101,102]),
  bins := [("area_weighted", [[1,2],[3,4],[5,6]])],
  curr := "area_weighted",
  ops := [("area_weighted", ["orig", "area_weighted"])],
  altered := [("area_weighted", [100,101,102])],
  eofs := none, svals := none, eof_stats := [], std_scaling := none }

/-- A data object whose current stage is the EOF projection itself, with
EOF artifacts populated; its history chain descends from the projection
stage, so a copy must retain the artifacts. -/
def sampleEofProj : DataObj := { sampleAreaWeighted with
  curr := "eof_proj",
  bins := [("eof_proj", [[1],[2],[3]])],
  data := [[1],[2],[3]],
  ops := [("eof_proj", ["orig", "area_weighted", "eof_proj"])],
  eofs := some [[1],[0]],
  svals := some [5],
  eof_stats := [("calc_on", some "area_weighted")] }

/-- Stage key `_ANOMALY = "anomaly"`. -/
def ANOMALY : String := "anomaly"

/-- Stage key `_DETRENDED = "detrended"`. -/
def DETRENDED : String := "detrended"

/-- Modelled from the spec: the anomaly kernel `calc_anomaly` lives in
`pylim/Stats.py`, which is not under `src/`.  The spec describes it as
subtracting a per-subannual-phase climatology (phase = sample index mod
`yearLen`) computed over the whole series, also yielding the climatology as
a side artifact. -/
def calc_anomaly (data : List (List ℚ)) (year_len : Nat) :
    List (List ℚ) × List (List ℚ) :=
  let climo := (List.range year_len).map (fun p =>
    let idxs := (List.range data.length).filter (fun t => t % year_len = p)
    vecScale (1 / (idxs.length : ℚ)) (vecSum (idxs.map (fun t => data.getD t []))))
  ((List.range data.length).map (fun t =>
    List.zipWith (fun x y => x - y) (data.getD t []) (climo.getD (t % year_len) [])),
   climo)

/-- Modelled from the spec: the detrend kernel `detrend_data` lives in
`pylim/Stats.py`, which is not under `src/`.  The spec describes it as
removing the best-fit linear trend along time, per spatial location
independently: ordinary least squares against the sample index, written
here in centered form. -/
def detrend_data (data : List (List ℚ)) : List (List ℚ) :=
  let N := data.length
  let tBar : ℚ := ((N : ℚ) - 1) / 2
  let xBar := vecScale (1 / (N : ℚ)) (vecSum data)
  let denom : ℚ := ((List.range N).map (fun t => ((t : ℚ) - tBar) * ((t : ℚ) - tBar))).sum
  let cov := vecSum ((List.range N).map (fun (t : Nat) => vecScale ((t : ℚ) - tBar) (data.getD t [])))
  let slope := vecScale (1 / denom) cov
  (List.range N).map (fun (t : Nat) =>
    List.zipWith (fun x y => x - y) (data.getD t [])
      (vecAdd xBar (vecScale ((t : ℚ) - tBar) slope)))

/-- `BaseDataObject.calc_anomaly` (lines 690-729), eager path with no
externally supplied climatology.  The leading-time check (lines 711-713)
raises first, with the object untouched, before the out-of-src kernel is
ever reached; then `year_len` is clamped to at least 1, the kernel runs
(allocate-then-fill collapsed), and the stage is committed.  The
climatology side artifact is a plain attribute in the source, not a
databin, and is not tracked in the state.  Named with an `_obj` suffix
because the flat namespace already holds the kernel of the same source
name. -/
def calc_anomaly_obj (st : DataObj) (year_len : Int) (save : Bool) : DRes :=
  if st.leading_time = false then
    .error ("Can only perform anomaly calculation with a specified leading sampling dimension", st)
  else
    let yl := (max year_len 1).toNat
    let newData := (calc_anomaly st.data yl).1
    let withBin := save = true ∧ st.save_none = false
    let st1 := { st with data := newData,
                         bins := if withBin then updateA st.bins ANOMALY newData else st.bins }
    match List.lookup st.curr st.ops with
    | none => .error ("KeyError: current key missing from operation history", st1)
    | some chain =>
      .ok { st1 with ops := updateA st1.ops ANOMALY (chain ++ [ANOMALY]), curr := ANOMALY }

/-- `BaseDataObject.detrend_data` (lines 731-758), eager path.  The
leading-time check (lines 746-748) raises first, with the object
untouched, before the out-of-src kernel is ever reached; then the kernel
runs (allocate-then-fill collapsed) and the stage is committed.  Named
with an `_obj` suffix because the flat namespace already holds the kernel
of the same source name. -/
def detrend_data_obj (st : DataObj) (save : Bool) : DRes :=
  if st.leading_time = false then
    .error ("Can only perform detrending with a specified leading sampling dimension", st)
  else
    let newData := detrend_data st.data
    let withBin := save = true ∧ st.save_none = false
    let st1 := { st with data := newData,
                         bins := if withBin then updateA st.bins DETRENDED newData else st.bins }
    match List.lookup st.curr st.ops with
    | none => .error ("KeyError: current key missing from operation history", st1)
    | some chain =>
      .ok { st1 with ops := updateA st1.ops DETRENDED (chain ++ [DETRENDED]), curr := DETRENDED }

lemma fdiv_coe (a b : Nat) : Int.fdiv (a : Int) (b : Int) = ((a / b : Nat) : Int) := by
  rw [Int.fdiv_eq_ediv _ (by positivity)]
  exact (Int.ofNat_ediv a b).symm

lemma vecAdd_length (a b : List ℚ) : (vecAdd a b).length = min a.length b.length := by
  simp [vecAdd]

lemma vecSum_length (rows : List (List ℚ)) (m : Nat)
    (h : ∀ r ∈ rows, r.length = m) (hne : rows ≠ []) : (vecSum rows).length = m := by
  induction rows with
  | nil => exact absurd rfl hne
  | cons r rs ih =>
    cases rs with
    | nil => simpa using h r (by simp)
    | cons r2 rs2 =>
      have hr : r.length = m := h r (by simp)
      have hrec : (vecSum (r2 :: rs2)).length = m := by
        refine ih ?_ (by simp)
        intro x hx
        exact h x (by simp [hx])
      simp only [vecSum, vecAdd_length, hr, hrec, min_self]

lemma vecAdd_getD (a b : List ℚ) (j : Nat) (ha : j < a.length) (hb : j < b.length) :
    (vecAdd a b).getD j 0 = a.getD j 0 + b.getD j 0 := by
  have hz : j < (vecAdd a b).length := by
    simp [vecAdd_length]; omega
  rw [List.getD_eq_getElem _ _ hz, List.getD_eq_getElem _ _ ha, List.getD_eq_getElem _ _ hb]
  simp [vecAdd, List.getElem_zipWith]

lemma vecSum_getD (rows : List (List ℚ)) (m j : Nat)
    (h : ∀ r ∈ rows, r.length = m) (hne : rows ≠ []) (hj : j < m) :
    (vecSum rows).getD j 0 = (rows.map (fun r => r.getD j 0)).sum := by
  induction rows with
  | nil => exact absurd rfl hne
  | cons r rs ih =>
    cases rs with
    | nil => simp [vecSum]
    | cons r2 rs2 =>
      have hr : r.length = m := h r (by simp)
      have hall : ∀ x ∈ r2 :: rs2, x.length = m := fun x hx => h x (by simp [hx])
      have hrec := ih hall (by simp)
      have hlen : (vecSum (r2 :: rs2)).length = m := vecSum_length _ m hall (by simp)
      simp only [vecSum, List.map_cons, List.sum_cons]
      rw [vecAdd_getD _ _ j (by omega) (by omega), hrec]
      simp

lemma vecScale_length (c : ℚ) (v : List ℚ) : (vecScale c v).length = v.length := by
  simp [vecScale]

lemma vecScale_getD (c : ℚ) (v : List ℚ) (j : Nat) (hj : j < v.length) :
    (vecScale c v).getD j 0 = c * v.getD j 0 := by
  have hz : j < (vecScale c v).length := by simp [vecScale_length]; omega
  rw [List.getD_eq_getElem _ _ hz, List.getD_eq_getElem _ _ hj]
  simp [vecScale]

lemma map_getD_eq_range_map {α β : Type} (l : List α) (d : α) (f : α → β) :
    l.map f = (List.range l.length).map (fun t => f (l.getD t d)) := by
  apply List.ext_getElem (by simp)
  intro i h1 h2
  have hi : i < l.length := by simpa using h1
  simp [List.getElem_map, List.getElem_range, List.getD_eq_getElem _ _ hi,
        List.getElem?_eq_getElem hi]

lemma block_getD (l : List (List ℚ)) (a kk t : Nat) (ht : t < kk)
    (hb : a + kk ≤ l.length) :
    ((l.drop a).take kk).getD t [] = l.getD (a + t) [] := by
  have h1 : t < ((l.drop a).take kk).length := by
    simp [List.length_take, List.length_drop]; omega
  have h2 : a + t < l.length := by omega
  rw [List.getD_eq_getElem _ _ h1, List.getD_eq_getElem _ _ h2]
  rw [List.getElem_take, List.getElem_drop]

lemma block_length (l : List (List ℚ)) (a kk : Nat) (hb : a + kk ≤ l.length) :
    ((l.drop a).take kk).length = kk := by
  simp [List.length_take, List.length_drop]; omega

/-- C1: with a leading time axis of length `N`, resampling with block size
`k` and shift `s ≥ 0` yields `floor((N-s)/k)` output samples, output sample
`i` is the arithmetic mean of input samples `s + i*k` through
`s + (i+1)*k - 1`, the time coordinate becomes the input coordinate
subsampled with stride `k` from offset `s`, and the new stage is committed;
calling with `s < 0` raises and leaves the object exactly as it was (in
particular no new stage is committed). -/
theorem C1_resample_block_mean (st : DataObj) (key : String) (k shift : Int)
    (N m ti : Nat) (coord : List ℚ)
    (hlt : st.leading_time = true)
    (hts : st.time_shp = [(N : Int)])
    (hdl : st.data.length = N)
    (hrows : ∀ r ∈ st.data, r.length = m)
    (hdc : st.dim_coords_time = some (ti, coord))
    (hcl : coord.length = N)
    (hops : (List.lookup st.curr st.ops).isSome = true)
    (hk : 0 < k) :
    (0 ≤ shift → shift ≤ (N : Int) →
      ∃ st', okD (time_average_resample st key k shift) = some st' ∧
        st'.data.length = (N - shift.toNat) / k.toNat ∧
        (∀ i, i < (N - shift.toNat) / k.toNat → ∀ j, j < m →
          (st'.data.getD i []).getD j 0 =
            ((List.range k.toNat).map
              (fun t => (st.data.getD (shift.toNat + i * k.toNat + t) []).getD j 0)).sum
              / (k.toNat : ℚ)) ∧
        (∃ c', st'.dim_coords_time = some (ti, c') ∧
          c'.length = (N - shift.toNat) / k.toNat ∧
          ∀ i, i < (N - shift.toNat) / k.toNat →
            c'.getD i 0 = coord.getD (shift.toNat + i * k.toNat) 0) ∧
        List.lookup key st'.bins = some st'.data ∧
        st'.time_shp = [(((N - shift.toNat) / k.toNat : Nat) : Int)] ∧
        st'.curr = key) ∧
    (shift < 0 → errStateD (time_average_resample st key k shift) = some st) := by
  obtain ⟨chain, hchain⟩ := Option.isSome_iff_exists.mp hops
  constructor
  · intro h0 hsN
    have hk0 : ¬ (k = 0) := by omega
    have hkneg : ¬ (k < 0) := by omega
    have hsnn : ¬ (shift < 0) := by omega
    have hs' : ((shift.toNat : Nat) : Int) = shift := Int.toNat_of_nonneg h0
    have hk' : ((k.toNat : Nat) : Int) = k := Int.toNat_of_nonneg hk.le
    have hkk0 : 0 < k.toNat := by omega
    have h1 : (N : Int) - shift = ((N - shift.toNat : Nat) : Int) := by omega
    have hfd : Int.fdiv ((N : Int) - shift) k
        = (((N - shift.toNat) / k.toNat : Nat) : Int) := by
      conv_lhs => rw [h1, ← hk']
      rw [fdiv_coe]
    have hnn : ¬ (Int.fdiv ((N : Int) - shift) k < 0) := by
      rw [hfd]; exact not_lt.mpr (Int.natCast_nonneg _)
    simp only [time_average_resample, hlt, hts, hdc, hchain, hsnn, hk0, hkneg,
               hnn, List.headD, hfd, if_false, if_neg, Int.toNat_ofNat, okD]
    refine ⟨_, rfl, ?_, ?_, ?_, ?_, ?_, ?_⟩
    · simp
    · intro i hi j hj
      dsimp only
      have hib : shift.toNat + i * k.toNat + k.toNat ≤ st.data.length := by
        have h3 : (i + 1) * k.toNat ≤ N - shift.toNat :=
          (Nat.le_div_iff_mul_le hkk0).mp hi
        rw [hdl]
        nlinarith [h3]
      have hblen : ((st.data.drop (shift.toNat + i * k.toNat)).take k.toNat).length
          = k.toNat := block_length _ _ _ hib
      have hbrows : ∀ r ∈ (st.data.drop (shift.toNat + i * k.toNat)).take k.toNat,
          r.length = m := fun r hr =>
        hrows r (List.drop_subset _ _ (List.take_subset _ _ hr))
      have hbne : (st.data.drop (shift.toNat + i * k.toNat)).take k.toNat ≠ [] := by
        intro hcon
        rw [hcon] at hblen
        simp at hblen
        omega
      have hgi : i < (List.map (fun i =>
          vecScale (1 / (k.toNat : ℚ)) (vecSum ((st.data.drop (shift.toNat + i * k.toNat)).take k.toNat)))
          (List.range ((N - shift.toNat) / k.toNat))).length := by
        simp [hi]
      rw [List.getD_eq_getElem _ _ hgi, List.getElem_map, List.getElem_range]
      rw [vecScale_getD _ _ j (by rw [vecSum_length _ m hbrows hbne]; omega)]
      rw [vecSum_getD _ m j hbrows hbne hj]
      rw [map_getD_eq_range_map _ ([] : List ℚ) (fun r => r.getD j 0), hblen]
      rw [List.map_congr_left (fun t ht => by
        rw [block_getD st.data _ _ t (List.mem_range.mp ht) hib])]
      rw [one_div, inv_mul_eq_div]
    · dsimp only
      refine ⟨_, rfl, by simp, fun i hi => ?_⟩
      have hgi : i < (List.map (fun i => coord.getD (shift.toNat + i * k.toNat) 0)
          (List.range ((N - shift.toNat) / k.toNat))).length := by simp [hi]
      rw [List.getD_eq_getElem _ _ hgi, List.getElem_map, List.getElem_range]
    · dsimp only
      simp [updateA]
    · dsimp only
    · dsimp only
  · intro hneg
    simp only [time_average_resample, hlt]
    rw [if_neg (by simp), if_pos hneg]
    simp [errStateD]

lemma pySliceTrim_spec (l : List ℚ) (e : Nat) (he : 0 < e) (h2e : 2 * e ≤ l.length) :
    (pySliceTrim l e).length = l.length - 2 * e ∧
    ∀ i, i < l.length - 2 * e → (pySliceTrim l e).getD i 0 = l.getD (e + i) 0 := by
  have hne : e ≠ 0 := by omega
  constructor
  · simp [pySliceTrim, hne, List.length_take, List.length_drop]
    omega
  · intro i hi
    have h1 : i < (pySliceTrim l e).length := by
      simp [pySliceTrim, hne, List.length_take, List.length_drop]
      omega
    have h2 : e + i < l.length := by omega
    rw [List.getD_eq_getElem _ _ h1, List.getD_eq_getElem _ _ h2]
    simp only [pySliceTrim, hne, if_false]
    rw [List.getElem_take, List.getElem_drop]

/-- C2 counterexample: with window 13 and year length 1 on a 20-sample
series the code trims `ceil((13//2)/1)*1 = 6` samples per end and outputs
`20 - 12 = 8` samples, while the trim formula as written in the claim,
`e = ceil((13/2)/1)*1 = 7`, would predict `20 - 14 = 6` samples: the claim
as stated is false on the code. -/
theorem C2_claimed_trim_counterexample :
    ((okD (calc_running_mean sampleTwenty 13 1 true)).map (fun s => s.data.length)
      = some 8) ∧ 20 - 2 * claimTrim 13 1 = 6 ∧ (8 : Nat) ≠ 6 :=
  ⟨by decide, by decide, by decide⟩

/-- C2 (amended): the running mean trims
`e = ceil(floor(w/2)/yearLen)*yearLen` samples from each end (`yearLen`
clamped to at least 1, and the half-window rounded DOWN before the
whole-year round-up, as the source computes it), so the output has `N-2e`
samples, the time shape records `N-2e`, and the output time coordinate is
the input coordinate sliced `[e:-e]`; in particular `w=12, yearLen=12`
gives `e=12` and output length `N-24`. -/
theorem C2_running_mean_trim_amended (st : DataObj) (w : Nat) (yl : Int)
    (N ti : Nat) (coord : List ℚ)
    (hlt : st.leading_time = true)
    (hdl : st.data.length = N)
    (hdc : st.dim_coords_time = some (ti, coord))
    (hcl : coord.length = N)
    (hops : (List.lookup st.curr st.ops).isSome = true)
    (hsn : st.save_none = false)
    (h2e : 2 * edgeTrimOf w yl ≤ N) :
    ∃ st', okD (calc_running_mean st w yl true) = some st' ∧
      st'.data.length = N - 2 * edgeTrimOf w yl ∧
      st'.time_shp = [((N - 2 * edgeTrimOf w yl : Nat) : Int)] ∧
      st'.dim_coords_time = some (ti, pySliceTrim coord (edgeTrimOf w yl)) ∧
      (0 < edgeTrimOf w yl →
        (pySliceTrim coord (edgeTrimOf w yl)).length = N - 2 * edgeTrimOf w yl ∧
        ∀ i, i < N - 2 * edgeTrimOf w yl →
          (pySliceTrim coord (edgeTrimOf w yl)).getD i 0 = coord.getD (edgeTrimOf w yl + i) 0) ∧
      List.lookup RUNMEAN st'.bins = some st'.data ∧
      st'.curr = RUNMEAN := by
  obtain ⟨chain, hchain⟩ := Option.isSome_iff_exists.mp hops
  simp only [calc_running_mean, hlt, hdc, hchain, hsn, if_false, if_neg,
             okD, and_true, and_self, eq_self_iff_true, if_true, if_pos]
  rw [if_neg (by simp), if_neg (by
    rintro ⟨-, -, hcon⟩
    rw [hdl] at hcon
    omega)]
  refine ⟨_, rfl, ?_, ?_, rfl, ?_, ?_, rfl⟩
  · simp [run_mean, hdl]
  · simp only [List.cons.injEq, and_true]
    rw [hdl]
    omega
  · intro he
    have h := pySliceTrim_spec coord (edgeTrimOf w yl) he (by omega)
    rw [hcl] at h
    exact h
  · dsimp only
    simp [updateA]

/-- Witness for C2 (amended): window 12, year length 12 on a 26-sample
series: trim 12 per end, output length 2, coordinate sliced `[12:-12]`. -/
theorem C2_running_mean_trim_amended_witness :
    ∃ st', okD (calc_running_mean sampleTwentySix 12 12 true) = some st' ∧
      st'.data.length = 26 - 2 * edgeTrimOf 12 12 ∧
      st'.time_shp = [((26 - 2 * edgeTrimOf 12 12 : Nat) : Int)] ∧
      st'.dim_coords_time = some (0, pySliceTrim [0,1,2,3,4,5,6,7,8,9,10,11,12,13,14,15,16,17,18,19,20,21,22,23,24,25] (edgeTrimOf 12 12)) ∧
      (0 < edgeTrimOf 12 12 →
        (pySliceTrim ([0,1,2,3,4,5,6,7,8,9,10,11,12,13,14,15,16,17,18,19,20,21,22,23,24,25] : List ℚ) (edgeTrimOf 12 12)).length = 26 - 2 * edgeTrimOf 12 12 ∧
        ∀ i, i < 26 - 2 * edgeTrimOf 12 12 →
          (pySliceTrim ([0,1,2,3,4,5,6,7,8,9,10,11,12,13,14,15,16,17,18,19,20,21,22,23,24,25] : List ℚ) (edgeTrimOf 12 12)).getD i 0
            = ([0,1,2,3,4,5,6,7,8,9,10,11,12,13,14,15,16,17,18,19,20,21,22,23,24,25] : List ℚ).getD (edgeTrimOf 12 12 + i) 0) ∧
      List.lookup RUNMEAN st'.bins = some st'.data ∧
      st'.curr = RUNMEAN :=
  C2_running_mean_trim_amended sampleTwentySix 12 12 26 0
    [0,1,2,3,4,5,6,7,8,9,10,11,12,13,14,15,16,17,18,19,20,21,22,23,24,25]
    rfl (by decide) rfl (by decide) (by decide) rfl (by decide)

/-- C3: the externally-supplied-mask path of construction is unreachable
for any usable mask: the dimension guard at lines 194-198 is written
`if dim_lim <= 3: raise`, inverted against its own message ("should not
have MORE than 3 dimensions"), so a 2D mask exactly matching a 2D spatial
shape — which the claim says is applied with construction succeeding — is
rejected with a `ValueError` before any mask application or compression
check can happen.  The second conjunct records that the rejected mask
indeed has no more than 3 dimensions. -/
theorem C3_matching_mask_raises :
    initValidDataBranch [45, 72] [45, 72]
      = .error "Valid data mask should not have more than 3 dimensions" ∧
    ([45, 72] : List Nat).length ≤ 3 := ⟨rfl, by decide⟩

/-- C4 counterexample: standardization invoked on a data object WITHOUT a
leading time axis does not raise — it succeeds and commits the
`standardized` stage bin, refuting the claim that every stage-transform
operation (including standardization) raises a fatal error there. -/
theorem C4_standardize_without_time_succeeds :
    (okD (standardize_data sampleFlat 2 true)).map
      (fun s => (s.curr, List.lookup STDKEY s.bins)) = some (STDKEY, some [[]]) ∧
    sampleFlat.leading_time = false := ⟨by decide, rfl⟩

/-- C4 (amended): on a data object without a leading time axis, the
resample, running-mean, anomaly, detrend and EOF-projection transforms
raise a fatal error and leave the object (in particular its stage bins)
exactly as before; but area weighting and standardization perform no
leading-time check: each computes its result and commits a new stage. -/
theorem C4_leading_time_checks_amended (st : DataObj) (f : ℚ) (area : List ℚ)
    (hlt : st.leading_time = false)
    (hops : (List.lookup st.curr st.ops).isSome = true)
    (hsn : st.save_none = false)
    (harea : st.cell_area = some area) :
    (∀ key k shift, errStateD (time_average_resample st key k shift) = some st) ∧
    (∀ w yl sv, errStateD (calc_running_mean st w yl sv) = some st) ∧
    (∀ yl sv, errStateD (calc_anomaly_obj st yl sv) = some st) ∧
    (∀ sv, errStateD (detrend_data_obj st sv) = some st) ∧
    (∀ n B sv ck pk, errStateD (eof_proj_data st n B sv ck pk) = some st) ∧
    (∃ st', okD (standardize_data st f true) = some st' ∧
      st'.data = st.data.map (vecScale f) ∧
      List.lookup STDKEY st'.bins = some st'.data ∧ st'.curr = STDKEY) ∧
    (∃ st', okD (area_weight_data st true) = some st' ∧
      List.lookup AWGHT st'.bins = some st'.data ∧ st'.curr = AWGHT) := by
  obtain ⟨chain, hchain⟩ := Option.isSome_iff_exists.mp hops
  refine ⟨?_, ?_, ?_, ?_, ?_, ?_, ?_⟩
  · intro key k shift
    simp [time_average_resample, hlt, errStateD]
  · intro w yl sv
    simp [calc_running_mean, hlt, errStateD]
  · intro yl sv
    simp [calc_anomaly_obj, hlt, errStateD]
  · intro sv
    simp [detrend_data_obj, hlt, errStateD]
  · intro n B sv ck pk
    simp [eof_proj_data, hlt, errStateD]
  · simp only [standardize_data, hchain, hsn, okD, and_self, if_true,
               eq_self_iff_true, and_true, true_and]
    refine ⟨_, rfl, rfl, ?_, rfl⟩
    dsimp only
    simp [updateA]
  · simp only [area_weight_data, harea, hchain, hsn, okD, and_self, if_true,
               eq_self_iff_true, and_true, true_and]
    refine ⟨_, rfl, ?_, rfl⟩
    dsimp only
    simp [updateA]

/-- Witness for C4 (amended), instantiated on the concrete
no-leading-time object. -/
theorem C4_leading_time_checks_amended_witness :
    (∀ key k shift, errStateD (time_average_resample sampleFlat key k shift) = some sampleFlat) ∧
    (∀ w yl sv, errStateD (calc_running_mean sampleFlat w yl sv) = some sampleFlat) ∧
    (∀ yl sv, errStateD (calc_anomaly_obj sampleFlat yl sv) = some sampleFlat) ∧
    (∀ sv, errStateD (detrend_data_obj sampleFlat sv) = some sampleFlat) ∧
    (∀ n B sv ck pk, errStateD (eof_proj_data sampleFlat n B sv ck pk) = some sampleFlat) ∧
    (∃ st', okD (standardize_data sampleFlat 2 true) = some st' ∧
      st'.data = sampleFlat.data.map (vecScale 2) ∧
      List.lookup STDKEY st'.bins = some st'.data ∧ st'.curr = STDKEY) ∧
    (∃ st', okD (area_weight_data sampleFlat true) = some st' ∧
      List.lookup AWGHT st'.bins = some st'.data ∧ st'.curr = AWGHT) :=
  C4_leading_time_checks_amended sampleFlat 2 [2, 2] rfl (by decide) rfl rfl

/-- C5 counterexample: `calc_running_mean` on a 4-sample object with
window 12, year length 12 raises (the output allocation has a negative
first dimension), yet the raising call leaves the TIME dimension
coordinate already overwritten with the empty `[12:-12]` slice — the prior
state is NOT left exactly as it was, refuting the claim for every raising
transform invocation. -/
theorem C5_running_mean_mutates_before_raise :
    errStateD (calc_running_mean sampleFour 12 12 true)
      = some { sampleFour with dim_coords_time := some (0, ([] : List ℚ)) } ∧
    ({ sampleFour with dim_coords_time := some (0, ([] : List ℚ)) } : DataObj) ≠ sampleFour :=
  ⟨by decide, by decide⟩

/-- C5 (amended): every raising invocation of `time_average_resample`
leaves the object exactly as it was before the call (bins, current key,
history and coordinates included), and so does a `calc_running_mean` call
rejected by its leading-time check; but `calc_running_mean` overwrites the
TIME dimension coordinate with the trimmed slice BEFORE allocating the
output bin, so when that allocation fails (trim exceeding the series
length) the error leaves exactly that one mutation behind, the rest of the
state being as before. -/
theorem C5_transform_error_atomicity_amended (st : DataObj) (key : String)
    (w N : Nat) (yl : Int)
    (hops : (List.lookup st.curr st.ops).isSome = true)
    (htc : st.leading_time = true → st.dim_coords_time.isSome = true)
    (hts : st.time_shp = [(N : Int)])
    (hdl : st.data.length = N) :
    (∀ k shift st', 0 ≤ k → errStateD (time_average_resample st key k shift) = some st' → st' = st) ∧
    (∀ k, k < 0 → st.leading_time = true →
      errStateD (time_average_resample st key k (N : Int))
        = some { st with bins := updateA st.bins key [], data := [] }) ∧
    (st.leading_time = false → errStateD (calc_running_mean st w yl true) = some st) ∧
    (∀ ti coord, st.leading_time = true → st.dim_coords_time = some (ti, coord) →
      st.save_none = false →
      ((st.data.length : Int) - 2 * ((edgeTrimOf w yl : Nat) : Int) < 0) →
      errStateD (calc_running_mean st w yl true)
        = some { st with dim_coords_time := some (ti, pySliceTrim coord (edgeTrimOf w yl)) }) := by
  obtain ⟨chain, hchain⟩ := Option.isSome_iff_exists.mp hops
  refine ⟨?_, ?_, ?_, ?_⟩
  · intro k shift st' hk h
    by_cases hlt : st.leading_time = false
    · simp [time_average_resample, hlt, errStateD] at h
      exact h.symm
    · have hlt' : st.leading_time = true := by
        revert hlt; cases st.leading_time <;> simp
      obtain ⟨tc, htc'⟩ := Option.isSome_iff_exists.mp (htc hlt')
      obtain ⟨ti, coord⟩ := tc
      simp only [time_average_resample, hlt', htc', hchain] at h
      rw [if_neg (by simp)] at h
      by_cases h1 : shift < 0
      · rw [if_pos h1] at h
        simp [errStateD] at h
        exact h.symm
      · rw [if_neg h1] at h
        by_cases h2 : k = 0
        · rw [if_pos h2] at h
          simp [errStateD] at h
          exact h.symm
        · rw [if_neg h2] at h
          by_cases h3 : Int.fdiv (st.time_shp.headD 0 - shift) k < 0
          · rw [if_pos h3] at h
            simp [errStateD] at h
            exact h.symm
          · rw [if_neg h3, if_neg (by omega : ¬ (k < 0))] at h
            simp [errStateD] at h
  · intro k hkneg hlt'
    simp only [time_average_resample, hlt', hts, List.headD, sub_self,
               Int.zero_fdiv, Int.zero_fmod]
    rw [if_neg (by simp), if_neg (by omega : ¬ ((N : Int) < 0)),
        if_neg (by omega : ¬ (k = 0)), if_neg (by omega : ¬ ((0 : Int) < 0)),
        if_pos hkneg]
    simp only [if_true, errStateD, Option.some.injEq]
    congr 1
    rw [Int.toNat_natCast, ← hdl]
    exact List.drop_length st.data
  · intro hlt
    simp [calc_running_mean, hlt, errStateD]
  · intro ti coord hlt hdc hsn hneg
    simp only [calc_running_mean, hlt, hdc]
    rw [if_neg (by simp), if_pos ⟨trivial, hsn, hneg⟩]
    simp [errStateD]

/-- Witness for C5 (amended), instantiated on the concrete four-sample
object: resample error paths with nonnegative block size are atomic there,
a negative block size with shift at the series end raises only after
committing the empty databin and emptying the data pointer, and the
too-short running mean leaves exactly the coordinate mutation behind. -/
theorem C5_transform_error_atomicity_amended_witness :
    (∀ k shift st', 0 ≤ k → errStateD (time_average_resample sampleFour "resampled" k shift) = some st' → st' = sampleFour) ∧
    (∀ k, k < 0 → sampleFour.leading_time = true →
      errStateD (time_average_resample sampleFour "resampled" k ((4 : Nat) : Int))
        = some { sampleFour with bins := updateA sampleFour.bins "resampled" [], data := [] }) ∧
    (sampleFour.leading_time = false → errStateD (calc_running_mean sampleFour 12 12 true) = some sampleFour) ∧
    (∀ ti coord, sampleFour.leading_time = true → sampleFour.dim_coords_time = some (ti, coord) →
      sampleFour.save_none = false →
      ((sampleFour.data.length : Int) - 2 * ((edgeTrimOf 12 12 : Nat) : Int) < 0) →
      errStateD (calc_running_mean sampleFour 12 12 true)
        = some { sampleFour with dim_coords_time := some (ti, pySliceTrim coord (edgeTrimOf 12 12)) }) :=
  C5_transform_error_atomicity_amended sampleFour "resampled" 12 4 12 (by decide) (by decide) rfl (by decide)

/-- C6: time-coordinate resolution returns `alteredTimeCoordinates[key]`
when present, else the coordinate of the nearest ancestor in the recorded
history chain walked backward; it raises when the history entry is missing
or no ancestor has a recorded coordinate, raises when the resolved vector
length differs from the requested data length, and on success installs the
resolved vector and the new time shape — all raising paths leaving the
object untouched. -/
theorem C6_set_time_coord_resolution (st : DataObj) (key : String) (L : Nat) :
    (∀ tc, List.lookup key st.altered = some tc →
      ((tc.length = L → ∀ ti c0, st.dim_coords_time = some (ti, c0) →
        okD (set_time_coord st key L)
          = some { st with dim_coords_time := some (ti, tc), time_shp := [(L : Int)] }) ∧
       (tc.length ≠ L → errStateD (set_time_coord st key L) = some st))) ∧
    (List.lookup key st.altered = none →
      (List.lookup key st.ops = none → errStateD (set_time_coord st key L) = some st) ∧
      (∀ chain, List.lookup key st.ops = some chain →
        (chain.reverse.find? (fun a => (List.lookup a st.altered).isSome) = none →
          errStateD (set_time_coord st key L) = some st) ∧
        (∀ anc tc, chain.reverse.find? (fun a => (List.lookup a st.altered).isSome) = some anc →
          List.lookup anc st.altered = some tc →
          ((tc.length = L → ∀ ti c0, st.dim_coords_time = some (ti, c0) →
            okD (set_time_coord st key L)
              = some { st with dim_coords_time := some (ti, tc), time_shp := [(L : Int)] }) ∧
           (tc.length ≠ L → errStateD (set_time_coord st key L) = some st))))) := by
  constructor
  · intro tc htc
    constructor
    · intro hlen ti c0 hdc
      simp only [set_time_coord, resolveTimeCoord, htc, hdc, okD]
      rw [if_neg (by simp [hlen])]
    · intro hlen
      simp only [set_time_coord, resolveTimeCoord, htc]
      rw [if_pos hlen]
      simp [errStateD]
  · intro hnone
    refine ⟨?_, ?_⟩
    · intro hops
      simp [set_time_coord, resolveTimeCoord, hnone, hops, errStateD]
    · intro chain hchain
      constructor
      · intro hfind
        simp [set_time_coord, resolveTimeCoord, hnone, hchain, hfind, errStateD]
      · intro anc tc hfind hanc
        constructor
        · intro hlen ti c0 hdc
          simp only [set_time_coord, resolveTimeCoord, hnone, hchain, hfind, hanc, hdc, okD]
          rw [if_neg (by simp [hlen])]
        · intro hlen
          simp only [set_time_coord, resolveTimeCoord, hnone, hchain, hfind, hanc]
          rw [if_pos hlen]
          simp [errStateD]

/-- Witness for C6: resolving the `anomaly` stage walks the chain back to
`orig` and installs its 3-vector when the requested length is 3, and
raises with the object untouched when the requested length is 5. -/
theorem C6_set_time_coord_resolution_witness :
    okD (set_time_coord sampleChain "anomaly" 3)
      = some { sampleChain with dim_coords_time := some (0, [100,101,102]),
                                time_shp := [(3 : Int)] } ∧
    errStateD (set_time_coord sampleChain "anomaly" 5) = some sampleChain := by
  constructor
  · exact ((((C6_set_time_coord_resolution sampleChain "anomaly" 3).2 (by decide)).2
      ["orig", "running_mean", "anomaly"] (by decide)).2 "orig" [100,101,102]
      (by decide) (by decide)).1 (by decide) 0 [100,101,102,103,104,105,106,107,108,109] rfl
  · exact ((((C6_set_time_coord_resolution sampleChain "anomaly" 5).2 (by decide)).2
      ["orig", "running_mean", "anomaly"] (by decide)).2 "orig" [100,101,102]
      (by decide) (by decide)).2 (by decide)

lemma compressRow_nil (vs : List Bool) : compressRow vs [] = [] := by
  rcases vs with _ | ⟨b, t⟩
  · rfl
  · cases b <;> rfl

lemma inflateRow_compressRow (vs : List Bool) (row : List (Option ℚ))
    (hsome : ∀ i, i < vs.length → vs.getD i false = true → (row.getD i none).isSome = true) :
    inflateRow vs (compressRow vs row)
      = (List.range vs.length).map (fun j => if vs.getD j false = true then row.getD j none else none) := by
  induction vs generalizing row with
  | nil => simp [inflateRow, compressRow]
  | cons b vs ih =>
    cases row with
    | nil =>
      cases b with
      | true =>
        exfalso
        have h := hsome 0 (by simp) (by simp)
        simp at h
      | false =>
        have hrec := ih [] (fun i hi hv => by
          have h := hsome (i + 1) (by simpa using Nat.succ_lt_succ hi) (by simpa using hv)
          simp at h)
        rw [compressRow_nil] at hrec ⊢
        show none :: inflateRow vs [] = _
        rw [List.length_cons, List.range_succ_eq_map, List.map_cons, List.map_map]
        simp only [List.getD_cons_zero, List.getD_cons_succ, Function.comp]
        refine congrArg₂ _ (by simp) ?_
        rw [hrec]
        exact List.map_congr_left (fun t ht => by simp)
    | cons x xs =>
      cases b with
      | true =>
        have hx : x.isSome = true := by simpa using hsome 0 (by simp) (by simp)
        obtain ⟨v, hv⟩ := Option.isSome_iff_exists.mp hx
        have hrec := ih xs (fun i hi hvv => by
          have h := hsome (i + 1) (by simpa using Nat.succ_lt_succ hi) (by simpa using hvv)
          simpa using h)
        show inflateRow (true :: vs) (x.getD 0 :: compressRow vs xs) = _
        show some (x.getD 0) :: inflateRow vs (compressRow vs xs) = _
        rw [List.length_cons, List.range_succ_eq_map, List.map_cons, List.map_map]
        simp only [List.getD_cons_zero, List.getD_cons_succ, Function.comp]
        refine congrArg₂ _ ?_ ?_
        · simp [hv]
        · rw [hrec]
          exact List.map_congr_left (fun t ht => by simp)
      | false =>
        have hrec := ih xs (fun i hi hvv => by
          have h := hsome (i + 1) (by simpa using Nat.succ_lt_succ hi) (by simpa using hvv)
          simpa using h)
        show none :: inflateRow vs (compressRow vs xs) = _
        rw [List.length_cons, List.range_succ_eq_map, List.map_cons, List.map_map]
        simp only [List.getD_cons_zero, List.getD_cons_succ, Function.comp]
        refine congrArg₂ _ (by simp) ?_
        rw [hrec]
        exact List.map_congr_left (fun t ht => by simp)

lemma validMaskOf_length (grid : List (List (Option ℚ))) (w : Nat) :
    (validMaskOf grid w).length = w := by simp [validMaskOf]

lemma validMaskOf_getD (grid : List (List (Option ℚ))) (w j : Nat) (hj : j < w) :
    (validMaskOf grid w).getD j false = colValid grid j := by
  have h : j < (validMaskOf grid w).length := by rw [validMaskOf_length]; omega
  rw [List.getD_eq_getElem _ _ h]
  simp [validMaskOf, List.getElem_map, List.getElem_range]

/-- C7: for a masked data object holding the spatial compression of a full
grid (compressed in lockstep with the validity mask derived from that
grid), inflating back to the full grid reproduces the original value at
every valid position and NaN (`none`) at every invalid one; and inflating
explicitly supplied data whose compressed-axis length differs from the
count of valid cells raises the documented fatal error. -/
theorem C7_inflate_roundtrip (grid : List (List (Option ℚ))) (w : Nat) (st : DataObj)
    (hmask : st.is_masked = true)
    (hvd : st.valid_data = some (validMaskOf grid w))
    (hdata : st.data = grid.map (fun r => compressRow (validMaskOf grid w) r)) :
    (∃ out, inflate_full_grid st none = .ok (some out) ∧
      out.length = grid.length ∧
      ∀ t, t < grid.length → ∀ j, j < w →
        (out.getD t []).getD j none =
          (if colValid grid j = true then (grid.getD t []).getD j none else none)) ∧
    (∀ d, (d.headD []).length ≠ countTrue (validMaskOf grid w) →
      inflate_full_grid st (some d)
        = .error "Input data does not have same length as number of valid data elements.") := by
  have hmask' : ¬ (st.is_masked = false) := by simp [hmask]
  constructor
  · simp only [inflate_full_grid, hmask', hvd, if_neg, if_false]
    refine ⟨_, rfl, ?_, ?_⟩
    · simp [hdata]
    · intro t ht j hj
      rw [hdata, List.map_map]
      have hlen : t < (List.map ((fun row => inflateRow (validMaskOf grid w) row) ∘
          fun r => compressRow (validMaskOf grid w) r) grid).length := by simp; omega
      rw [List.getD_eq_getElem _ _ hlen, List.getElem_map]
      have ht' : t < grid.length := by omega
      have hrow : grid[t] ∈ grid := List.getElem_mem _
      have hsome : ∀ i, i < (validMaskOf grid w).length →
          (validMaskOf grid w).getD i false = true →
          ((grid[t] : List (Option ℚ)).getD i none).isSome = true := by
        intro i hi hv
        rw [validMaskOf_length] at hi
        rw [validMaskOf_getD _ _ _ hi] at hv
        have hall := List.all_eq_true.mp hv _ hrow
        simpa using hall
      rw [Function.comp_apply, inflateRow_compressRow _ _ hsome]
      have hj2 : j < (List.map (fun j => if (validMaskOf grid w).getD j false = true
          then (grid[t] : List (Option ℚ)).getD j none else none)
          (List.range (validMaskOf grid w).length)).length := by
        simp [validMaskOf_length]; omega
      rw [List.getD_eq_getElem _ _ hj2, List.getElem_map, List.getElem_range]
      rw [validMaskOf_getD _ _ _ hj]
      rw [List.getD_eq_getElem _ _ ht']
  · intro d hd
    simp only [inflate_full_grid, hmask', hvd, if_neg, if_false]
    rw [if_pos hd]
    simp

/-- Witness for C7 on the concrete 2-by-3 grid with one invalid column. -/
theorem C7_inflate_roundtrip_witness :
    (∃ out, inflate_full_grid sampleMasked none = .ok (some out) ∧
      out.length = gridTwoByThree.length ∧
      ∀ t, t < gridTwoByThree.length → ∀ j, j < 3 →
        (out.getD t []).getD j none =
          (if colValid gridTwoByThree j = true then (gridTwoByThree.getD t []).getD j none else none)) ∧
    (∀ d, (d.headD []).length ≠ countTrue (validMaskOf gridTwoByThree 3) →
      inflate_full_grid sampleMasked (some d)
        = .error "Input data does not have same length as number of valid data elements.") :=
  C7_inflate_roundtrip gridTwoByThree 3 sampleMasked rfl rfl rfl

lemma range_map_headD {β : Type} (F : Nat) (f : Nat → β) (d : β) (hF : 0 < F) :
    ((List.range F).map f).headD d = f 0 := by
  cases F with
  | zero => omega
  | succ n => rw [List.range_succ_eq_map]; simp

lemma matMul_shape (A B : List (List ℚ)) :
    (matMul A B).length = A.length ∧
    ∀ r ∈ matMul A B, r.length = (B.headD []).length := by
  constructor
  · simp [matMul]
  · intro r hr
    simp only [matMul, List.mem_map] at hr
    obtain ⟨row, hrow, heq⟩ := hr
    rw [← heq]
    simp

/-- C8: EOF projection onto `numEofs` retained modes yields output of shape
`(N, numEofs)` committed as the `eof_proj` stage; an externally supplied
basis overrides the retained-mode count with its own column count, its row
count must equal the feature-dimension length of the data (else the
feature-mismatch fatal error, raised with the object untouched).  The
`calc_eofs` kernel itself lives outside `src/` and is modelled from the
spec by its shape contract. -/
theorem C8_eof_projection_shapes (st : DataObj) (numEofs : Nat) (N F : Nat)
    (ck : String)
    (hlt : st.leading_time = true)
    (hN : st.data.length = N)
    (hF : (st.data.headD []).length = F)
    (hF0 : 0 < F)
    (hops : (List.lookup st.curr st.ops).isSome = true)
    (hsn : st.save_none = false) :
    (∃ st', okD (eof_proj_data st numEofs none true (some ck) none) = some st' ∧
      st'.data.length = N ∧ (∀ r ∈ st'.data, r.length = numEofs) ∧
      List.lookup EOFPROJ st'.bins = some st'.data ∧ st'.curr = EOFPROJ) ∧
    (∀ B kB, B.length = F → (∀ r ∈ B, r.length = kB) → B ≠ [] →
      ∃ st', okD (eof_proj_data st numEofs (some B) true (some ck) none) = some st' ∧
        st'.data.length = N ∧ (∀ r ∈ st'.data, r.length = kB) ∧
        List.lookup EOFPROJ st'.bins = some st'.data ∧ st'.curr = EOFPROJ) ∧
    (∀ B, B.length ≠ F →
      errStateD (eof_proj_data st numEofs (some B) true (some ck) none) = some st) := by
  obtain ⟨chain, hchain⟩ := Option.isSome_iff_exists.mp hops
  refine ⟨?_, ?_, ?_⟩
  · simp only [eof_proj_data, hlt, hchain, hsn, calc_eofs, hF, okD,
               Option.isNone_some, Bool.false_eq_true, false_and, if_false,
               and_self, if_true, eq_self_iff_true, and_true, true_and,
               Option.getD_some]
    rw [if_neg (by simp)]
    refine ⟨_, rfl, ?_, ?_, ?_, rfl⟩
    · simp [matMul, hN]
    · intro r hr
      have h2 := (matMul_shape st.data
        ((List.range F).map (fun i => (List.range numEofs).map (fun j => if i = j then (1:ℚ) else 0)))).2 r hr
      rw [h2, range_map_headD _ _ _ hF0]
      simp
    · dsimp only
      simp [updateA]
  · intro B kB hBF hBrows hBne
    simp only [eof_proj_data, hlt, hchain, hsn, okD,
               Option.isNone_some, Bool.false_eq_true, false_and, if_false,
               and_self, if_true, eq_self_iff_true, and_true, true_and,
               Option.getD_some, hF]
    rw [if_neg (by simp), if_neg (by rw [hBF]; omega)]
    simp only [hchain, hsn, okD, and_self, if_true, eq_self_iff_true, and_true,
               true_and, Option.getD_some]
    refine ⟨_, rfl, ?_, ?_, ?_, rfl⟩
    · simp [matMul, hN]
    · intro r hr
      have h2 := (matMul_shape st.data B).2 r hr
      rw [h2]
      cases B with
      | nil => exact absurd rfl hBne
      | cons b bs => simpa using hBrows b (by simp)
    · dsimp only
      simp [updateA]
  · intro B hBF
    simp only [eof_proj_data, hlt, hchain, hsn, errStateD,
               Option.isNone_some, Bool.false_eq_true, false_and, if_false,
               and_self, if_true, eq_self_iff_true, and_true, true_and, hF]
    rw [if_neg (by simp), if_pos hBF]

/-- Witness for C8 on the concrete (3, 2)-shaped object: projection onto 1
mode gives shape (3, 1); any supplied basis with 2 rows projects to its
column count; any other row count raises with the object untouched. -/
theorem C8_eof_projection_shapes_witness :
    (∃ st', okD (eof_proj_data sampleAreaWeighted 1 none true (some "area_weighted") none) = some st' ∧
      st'.data.length = 3 ∧ (∀ r ∈ st'.data, r.length = 1) ∧
      List.lookup EOFPROJ st'.bins = some st'.data ∧ st'.curr = EOFPROJ) ∧
    (∀ B kB, B.length = 2 → (∀ r ∈ B, r.length = kB) → B ≠ [] →
      ∃ st', okD (eof_proj_data sampleAreaWeighted 1 (some B) true (some "area_weighted") none) = some st' ∧
        st'.data.length = 3 ∧ (∀ r ∈ st'.data, r.length = kB) ∧
        List.lookup EOFPROJ st'.bins = some st'.data ∧ st'.curr = EOFPROJ) ∧
    (∀ B, B.length ≠ 2 →
      errStateD (eof_proj_data sampleAreaWeighted 1 (some B) true (some "area_weighted") none) = some sampleAreaWeighted) :=
  C8_eof_projection_shapes sampleAreaWeighted 1 3 2 "area_weighted"
    rfl (by decide) (by decide) (by decide) (by decide) rfl

/-- C9: copying with an index subsample on an object without a leading
time axis raises with the object untouched; otherwise the copy holds the
subsampled data and subsampled time coordinate (and time shape equal to
the selection length), keeps exactly the current databin with a
single-entry history chain, and the EOF basis, singular values and EOF
statistics survive into the copy exactly when the current stage key is the
EOF-projection stage or has it in its history chain, being reset to empty
otherwise. -/
theorem C9_copy_subsample_and_eof_retention (st : DataObj) (ti : Nat)
    (coord : List ℚ) (chain : List String)
    (hops : List.lookup st.curr st.ops = some chain) :
    (∀ idxs, st.leading_time = false → errStateD (copy_obj st (some idxs)) = some st) ∧
    (st.leading_time = true → st.dim_coords_time = some (ti, coord) →
      (∀ idxs, ∃ st', okD (copy_obj st (some idxs)) = some st' ∧
        st'.data = idxs.map (fun i => st.data.getD i []) ∧
        st'.dim_coords_time = some (ti, idxs.map (fun i => coord.getD i 0)) ∧
        st'.time_shp = [(idxs.length : Int)] ∧
        st'.bins = [(st.curr, st'.data)] ∧
        st'.ops = [(st.curr, chain)] ∧
        st'.altered = [(st.curr, idxs.map (fun i => coord.getD i 0))] ∧
        st'.eofs = (if st.curr = EOFPROJ ∨ chain.contains EOFPROJ then st.eofs else none) ∧
        st'.svals = (if st.curr = EOFPROJ ∨ chain.contains EOFPROJ then st.svals else none) ∧
        st'.eof_stats = (if st.curr = EOFPROJ ∨ chain.contains EOFPROJ then st.eof_stats else [])) ∧
      (∃ st', okD (copy_obj st none) = some st' ∧
        st'.data = st.data ∧
        st'.dim_coords_time = some (ti, coord) ∧
        st'.time_shp = st.time_shp ∧
        st'.bins = [(st.curr, st.data)] ∧
        st'.ops = [(st.curr, chain)] ∧
        st'.eofs = (if st.curr = EOFPROJ ∨ chain.contains EOFPROJ then st.eofs else none) ∧
        st'.svals = (if st.curr = EOFPROJ ∨ chain.contains EOFPROJ then st.svals else none) ∧
        st'.eof_stats = (if st.curr = EOFPROJ ∨ chain.contains EOFPROJ then st.eof_stats else []))) := by
  constructor
  · intro idxs hlt
    simp only [copy_obj]
    rw [if_pos ⟨rfl, hlt⟩]
    simp [errStateD]
  · intro hlt hdc
    constructor
    · intro idxs
      simp only [copy_obj, hops, hdc, okD]
      rw [if_neg (by simp [hlt])]
      exact ⟨_, rfl, rfl, rfl, rfl, rfl, rfl, rfl, rfl, rfl, rfl⟩
    · simp only [copy_obj, hops, hdc, okD]
      rw [if_neg (by simp)]
      exact ⟨_, rfl, rfl, rfl, rfl, rfl, rfl, rfl, rfl, rfl⟩

/-- Witness for C9 on the concrete EOF-projected object. -/
theorem C9_copy_subsample_and_eof_retention_witness :
    (∀ idxs, sampleEofProj.leading_time = false → errStateD (copy_obj sampleEofProj (some idxs)) = some sampleEofProj) ∧
    (sampleEofProj.leading_time = true → sampleEofProj.dim_coords_time = some (0, [100,101,102]) →
      (∀ idxs, ∃ st', okD (copy_obj sampleEofProj (some idxs)) = some st' ∧
        st'.data = idxs.map (fun i => sampleEofProj.data.getD i []) ∧
        st'.dim_coords_time = some (0, idxs.map (fun i => ([100,101,102] : List ℚ).getD i 0)) ∧
        st'.time_shp = [(idxs.length : Int)] ∧
        st'.bins = [(sampleEofProj.curr, st'.data)] ∧
        st'.ops = [(sampleEofProj.curr, ["orig", "area_weighted", "eof_proj"])] ∧
        st'.altered = [(sampleEofProj.curr, idxs.map (fun i => ([100,101,102] : List ℚ).getD i 0))] ∧
        st'.eofs = (if sampleEofProj.curr = EOFPROJ ∨ List.contains ["orig", "area_weighted", "eof_proj"] EOFPROJ then sampleEofProj.eofs else none) ∧
        st'.svals = (if sampleEofProj.curr = EOFPROJ ∨ List.contains ["orig", "area_weighted", "eof_proj"] EOFPROJ then sampleEofProj.svals else none) ∧
        st'.eof_stats = (if sampleEofProj.curr = EOFPROJ ∨ List.contains ["orig", "area_weighted", "eof_proj"] EOFPROJ then sampleEofProj.eof_stats else [])) ∧
      (∃ st', okD (copy_obj sampleEofProj none) = some st' ∧
        st'.data = sampleEofProj.data ∧
        st'.dim_coords_time = some (0, [100,101,102]) ∧
        st'.time_shp = sampleEofProj.time_shp ∧
        st'.bins = [(sampleEofProj.curr, sampleEofProj.data)] ∧
        st'.ops = [(sampleEofProj.curr, ["orig", "area_weighted", "eof_proj"])] ∧
        st'.eofs = (if sampleEofProj.curr = EOFPROJ ∨ List.contains ["orig", "area_weighted", "eof_proj"] EOFPROJ then sampleEofProj.eofs else none) ∧
        st'.svals = (if sampleEofProj.curr = EOFPROJ ∨ List.contains ["orig", "area_weighted", "eof_proj"] EOFPROJ then sampleEofProj.svals else none) ∧
        st'.eof_stats = (if sampleEofProj.curr = EOFPROJ ∨ List.contains ["orig", "area_weighted", "eof_proj"] EOFPROJ then sampleEofProj.eof_stats else []))) :=
  C9_copy_subsample_and_eof_retention sampleEofProj 0 [100,101,102]
    ["orig", "area_weighted", "eof_proj"] (by decide)

/-- C10: on an unmasked (fully dense) data object, inflate-to-full-grid
does not raise and does not return an array — it returns `None`
immediately, whatever data argument is supplied. -/
theorem C10_inflate_unmasked_returns_none (st : DataObj)
    (d : Option (List (List ℚ))) (h : st.is_masked = false) :
    inflate_full_grid st d = .ok none := by
  simp [inflate_full_grid, h]

/-- Witness for C10 on the concrete dense ten-sample object, with a data
argument supplied. -/
theorem C10_inflate_unmasked_returns_none_witness :
    inflate_full_grid sampleTen (some [[1],[2]]) = .ok none :=
  C10_inflate_unmasked_returns_none sampleTen (some [[1],[2]]) rfl

/-- Witness for C1: the synthetic length-10 series with block size 3 and
shift 1 from the testable-properties section, instantiating
`C1_resample_block_mean`. -/
theorem C1_resample_block_mean_witness :
    (0 ≤ (1 : Int) → (1 : Int) ≤ ((10 : Nat) : Int) →
      ∃ st', okD (time_average_resample sampleTen "resampled" 3 1) = some st' ∧
        st'.data.length = (10 - (1 : Int).toNat) / (3 : Int).toNat ∧
        (∀ i, i < (10 - (1 : Int).toNat) / (3 : Int).toNat → ∀ j, j < 1 →
          (st'.data.getD i []).getD j 0 =
            ((List.range (3 : Int).toNat).map
              (fun t => (sampleTen.data.getD ((1 : Int).toNat + i * (3 : Int).toNat + t) []).getD j 0)).sum
              / (((3 : Int).toNat : Nat) : ℚ)) ∧
        (∃ c', st'.dim_coords_time = some (0, c') ∧
          c'.length = (10 - (1 : Int).toNat) / (3 : Int).toNat ∧
          ∀ i, i < (10 - (1 : Int).toNat) / (3 : Int).toNat →
            c'.getD i 0 = ([100,101,102,103,104,105,106,107,108,109] : List ℚ).getD ((1 : Int).toNat + i * (3 : Int).toNat) 0) ∧
        List.lookup "resampled" st'.bins = some st'.data ∧
        st'.time_shp = [(((10 - (1 : Int).toNat) / (3 : Int).toNat : Nat) : Int)] ∧
        st'.curr = "resampled") ∧
    ((1 : Int) < 0 → errStateD (time_average_resample sampleTen "resampled" 3 1) = some sampleTen) :=
  C1_resample_block_mean sampleTen "resampled" 3 1 10 1 0
    [100,101,102,103,104,105,106,107,108,109]
    rfl rfl (by decide) (by decide) rfl (by decide) (by decide) (by decide)
